import Mathlib

/-!
Shallow embedding of the `astro-bottomsheet` core
(`src/core/BottomSheet.ts`, `src/core/helpers.ts`,
`src/core/bottomSheetInstance.ts`).

Pixel sizes, coordinates and timestamps are modelled as rationals (`ℚ`);
JavaScript numbers on these code paths are ordinary finite decimal values.
The DOM is abstracted to the data the controller actually reads:
the rendered panel height/width, the container height, and the
header+drag-handle heights, packaged in an `Env` record.
-/

/-- The inline `style.height` of the panel: absent (cleared with `""`),
an explicit pixel value (`"${n}px"`), or the `"50%"` used by `setMidSize`. -/
inductive HeightStyle where
  | unset : HeightStyle
  | px (v : ℚ) : HeightStyle
  | pct50 : HeightStyle
deriving DecidableEq, Repr

/-- Named events dispatched by the controller (`_dispatchEvent` call sites);
the `bottomsheet:` prefix of each name is dropped. -/
inductive Ev where
  | opened | closed | minimized | updating | dragging
  | sectionUpdated | midsize | minsize | maxsize
deriving DecidableEq, Repr

/-- Which snap routine an end-of-drag handler invokes. -/
inductive Snap where
  | toMin | toMid | toMax
deriving DecidableEq, Repr

/-- Layout facts the controller reads from the DOM, assumed stable across one
scenario: the container's `clientHeight`, the rendered panel height/width when
no inline style is set, and `header.clientHeight + dragHandle.clientHeight`
when both elements exist (`none` when either is missing). -/
structure Env where
  containerHeight : ℚ
  defaultHeight : ℚ
  defaultWidth : ℚ
  headerHandle : Option ℚ
deriving DecidableEq, Repr

/-- The controller's `this.state` fields together with the mutable
`this.options.minSize` / `this.options.maxSize` bounds and the panel's
inline height/width styles (`widthStyle = none` models `style.width = ""`). -/
structure Sheet where
  minSize : ℚ
  maxSize : ℚ
  startPoint : ℚ
  startSize : ℚ
  prevPoint : ℚ
  lastDiff : ℚ
  isDragging : Bool
  isOpen : Bool
  isMinimized : Bool
  isMaximized : Bool
  isUpdating : Bool
  dragStart : ℚ
  hasMoved : Bool
  totalMovement : ℚ
  heightStyle : HeightStyle
  widthStyle : Option ℚ
deriving DecidableEq, Repr

/-- Constructor state: `this.state` is all zeros/false, no inline styles;
`minSize`/`maxSize` come from the options object. -/
def initialSheet (minS maxS : ℚ) : Sheet :=
  { minSize := minS, maxSize := maxS, startPoint := 0, startSize := 0,
    prevPoint := 0, lastDiff := 0, isDragging := false, isOpen := false,
    isMinimized := false, isMaximized := false, isUpdating := false,
    dragStart := 0, hasMoved := false, totalMovement := 0,
    heightStyle := HeightStyle.unset, widthStyle := none }

/-- `panel.offsetHeight`: the explicit pixel style if set, half the container
for the `"50%"` style, otherwise the layout default. -/
def offsetHeight (env : Env) (s : Sheet) : ℚ :=
  match s.heightStyle with
  | HeightStyle.unset => env.defaultHeight
  | HeightStyle.px v => v
  | HeightStyle.pct50 => env.containerHeight / 2

/-- `panel.offsetWidth`: the explicit pixel style if set, otherwise the
layout default. -/
def offsetWidth (env : Env) (s : Sheet) : ℚ :=
  match s.widthStyle with
  | none => env.defaultWidth
  | some v => v

/-- `showPanelContent()`: clears both inline styles, marks open,
not minimized, not updating (CSS class changes are not modelled). -/
def showPanelContent (s : Sheet) : Sheet :=
  { s with widthStyle := none, heightStyle := HeightStyle.unset,
           isOpen := true, isMinimized := false, isUpdating := false }

/-- `hidePanelContent()`: sets minimized, clears maximized. -/
def hidePanelContent (s : Sheet) : Sheet :=
  { s with isMinimized := true, isMaximized := false }

/-- `setMinSize()`: hides content; on mobile pins `height` to `minSize` px,
on desktop clears the inline width; emits `minsize`. -/
def setMinSize (mob : Bool) (s : Sheet) : Sheet × List Ev :=
  let s1 := hidePanelContent s
  if mob then
    ({ s1 with heightStyle := HeightStyle.px s1.minSize }, [Ev.minsize])
  else
    ({ s1 with widthStyle := none }, [Ev.minsize])

/-- `setMaxSize()`: shows content, sets the maximized flag, pins the axis
size to `maxSize` px; emits `maxsize`. -/
def setMaxSize (mob : Bool) (s : Sheet) : Sheet × List Ev :=
  let s1 := showPanelContent s
  let s2 := { s1 with isMaximized := true }
  if mob then
    ({ s2 with heightStyle := HeightStyle.px s2.maxSize }, [Ev.maxsize])
  else
    ({ s2 with widthStyle := some s2.maxSize }, [Ev.maxsize])

/-- `setMidSize()`: on mobile clears maximized, shows content, sets
`height` to `"50%"` and emits `midsize`; on desktop it calls `setMaxSize`. -/
def setMidSize (mob : Bool) (s : Sheet) : Sheet × List Ev :=
  if mob then
    let s1 := { s with isMaximized := false }
    let s2 := showPanelContent s1
    ({ s2 with heightStyle := HeightStyle.pct50 }, [Ev.midsize])
  else
    setMaxSize mob s

/-- `_updateSizeLimits()`: on mobile `maxSize := container.clientHeight*0.95`
and, when header and drag handle exist, `minSize` is the sum of their client
heights; on desktop the bounds reset to 500/40. -/
def updateSizeLimits (mob : Bool) (env : Env) (s : Sheet) : Sheet :=
  if mob then
    let s1 := { s with maxSize := env.containerHeight * (95 / 100) }
    match env.headerHandle with
    | some h => { s1 with minSize := h }
    | none => s1
  else
    { s with maxSize := 500, minSize := 40 }

/-- `open()`: recompute limits; if already open and not updating, snap to
mid-size; otherwise show content and emit `open` (the content-wrapper
height reset touches a child element only). -/
def openPanel (mob : Bool) (env : Env) (s : Sheet) : Sheet × List Ev :=
  let s1 := updateSizeLimits mob env s
  if s1.isOpen ∧ ¬s1.isUpdating then
    setMidSize mob s1
  else
    (showPanelContent s1, [Ev.opened])

/-- `close()`: clears both inline styles, clears open and minimized,
emits `close`. -/
def closePanel (s : Sheet) : Sheet × List Ev :=
  ({ s with heightStyle := HeightStyle.unset, widthStyle := none,
            isOpen := false, isMinimized := false }, [Ev.closed])

/-- `minimize()`: no-op unless open and not minimized; otherwise hide
content, set minimized, pin height to `minSize` px on mobile / clear width
on desktop, emit `minimized`. -/
def minimizePanel (mob : Bool) (s : Sheet) : Sheet × List Ev :=
  if ¬s.isOpen ∨ s.isMinimized then (s, [])
  else
    let s1 := hidePanelContent s
    let s2 := { s1 with isMinimized := true }
    if mob then
      ({ s2 with heightStyle := HeightStyle.px s2.minSize }, [Ev.minimized])
    else
      ({ s2 with widthStyle := none }, [Ev.minimized])

/-! ### Scroll-conflict classifier (`_anyScrollableAncestorCanMove` and
helpers). An element is reduced to the fields those functions read; the
ancestor chain of the event target is a list walked upward. -/

/-- The data `_isScrollableY` / `_canScrollYInDirection` read from a DOM
element: whether computed `overflow-y` is `auto` or `scroll`, the scroll
metrics, and whether the element is the panel root itself. -/
structure Elem where
  overflowYAutoOrScroll : Bool
  scrollTop : ℚ
  scrollHeight : ℚ
  clientHeight : ℚ
  isPanel : Bool
deriving DecidableEq, Repr

/-- `_isScrollableY(el)`: false for the panel itself; otherwise computed
`overflow-y` must be `auto`/`scroll` and content must exceed the box. -/
def isScrollableY (e : Elem) : Bool :=
  if e.isPanel then false
  else e.overflowYAutoOrScroll && decide (e.scrollHeight > e.clientHeight)

/-- `_canScrollYInDirection(el, delta)`: requires `_isScrollableY`; for
`delta > 0` needs `scrollTop > 5`, for `delta < 0` needs
`scrollTop + clientHeight < scrollHeight`, and is false for `delta = 0`. -/
def canScrollYInDirection (e : Elem) (delta : ℚ) : Bool :=
  if ¬ isScrollableY e then false
  else if delta > 0 then decide (e.scrollTop > 5)
  else if delta < 0 then decide (e.scrollTop + e.clientHeight < e.scrollHeight)
  else false

/-- `_anyScrollableAncestorCanMove(startEl, delta)`: walk the chain upward
while the element exists and is not the panel; return true at the first
element that can scroll in the direction of `delta`. -/
def anyScrollableAncestorCanMove : List Elem → ℚ → Bool
  | [], _ => false
  | e :: rest, delta =>
    if e.isPanel then false
    else if canScrollYInDirection e delta then true
    else anyScrollableAncestorCanMove rest delta

/-! ### Drag state machine (`_onStart`, `_onMove*`, `_onEnd*`).
`mob` is the `Helpers.isMobile()` device-class flag at the moment the
handler runs; `now` is `Date.now()`; `chain` is the ancestor chain of the
move event's target, upward from the target itself. -/

/-- `_onStart(e)`: bail out when the target is not a drag zone; otherwise
mark dragging, stamp `dragStart`, reset movement tracking, show the panel
content (which clears inline styles), and capture the start coordinate and
the panel's current size on the device axis (`prevPoint` is set on the
mobile branch only). -/
def onStart (mob inDragZone : Bool) (point now : ℚ) (env : Env)
    (s : Sheet) : Sheet :=
  if ¬inDragZone then s
  else
    let s1 := { s with isDragging := true, dragStart := now,
                       hasMoved := false, totalMovement := 0 }
    let s2 := showPanelContent s1
    if mob then
      { s2 with startPoint := point, startSize := offsetHeight env s2,
                prevPoint := point }
    else
      { s2 with startPoint := point, startSize := offsetWidth env s2 }

/-- `_onMoveMobile(e)`: incremental delta from `prevPoint`, accumulate
`totalMovement`, set `hasMoved` past the 5px noise threshold; if a
scrollable ancestor can absorb the delta, abandon the drag; otherwise write
the clamped new height. -/
def onMoveMobile (chain : List Elem) (currentPoint : ℚ) (s : Sheet) :
    Sheet :=
  let diff := s.startPoint - currentPoint
  let prevPoint := s.prevPoint
  let s1 := { s with prevPoint := currentPoint }
  let delta := currentPoint - prevPoint
  let s2 := { s1 with totalMovement := s1.totalMovement + |delta| }
  let s3 := if s2.totalMovement > 5 then { s2 with hasMoved := true } else s2
  if anyScrollableAncestorCanMove chain delta then
    { s3 with isDragging := false }
  else
    let newSize := max s3.minSize (min s3.maxSize (s3.startSize + diff))
    { s3 with heightStyle := HeightStyle.px newSize }

/-- `_onMoveDesktop(e)`: delta tracked through `lastDiff`, accumulate
`totalMovement`, set `hasMoved` past the 5px threshold, write the clamped
new width. -/
def onMoveDesktop (currentPoint : ℚ) (s : Sheet) : Sheet :=
  let diff := s.startPoint - currentPoint
  let s1 := { s with totalMovement := s.totalMovement + |diff - s.lastDiff|,
                     lastDiff := diff }
  let s2 := if s1.totalMovement > 5 then { s1 with hasMoved := true } else s1
  let newSize := max s2.minSize (min s2.maxSize (s2.startSize + diff))
  { s2 with widthStyle := some newSize }

/-- `_onMove(e)`: only while dragging; dispatch to the mobile handler for
touch moves on mobile, the desktop handler for mouse moves, then emit
`dragging` unconditionally. -/
def onMove (mob : Bool) (chain : List Elem) (currentPoint : ℚ)
    (s : Sheet) : Sheet × List Ev :=
  if ¬s.isDragging then (s, [])
  else if mob then (onMoveMobile chain currentPoint s, [Ev.dragging])
  else (onMoveDesktop currentPoint s, [Ev.dragging])

/-- The branch structure of `_onEndMobile`: which snap routine runs, as a
pure function of the final size, the gesture's start size, and `maxSize`
(`midThreshold = maxSize * 0.6`). -/
def classifyEndMobile (finalSize startSize maxSize : ℚ) : Snap :=
  let midThreshold := maxSize * (6 / 10)
  if (finalSize < startSize ∧ finalSize > midThreshold) ∨
     (finalSize > startSize ∧ finalSize < midThreshold) then Snap.toMid
  else if finalSize < startSize ∧ finalSize < midThreshold then Snap.toMin
  else Snap.toMax

/-- The branch structure of `_onEndDesktop`: below the start size snaps to
minimum, otherwise to maximum. -/
def classifyEndDesktop (finalSize startSize : ℚ) : Snap :=
  if finalSize < startSize then Snap.toMin else Snap.toMax

/-- Dispatch from a classified outcome to the corresponding snap routine. -/
def snapRun (mob : Bool) (snap : Snap) (s : Sheet) : Sheet × List Ev :=
  match snap with
  | Snap.toMid => setMidSize mob s
  | Snap.toMin => setMinSize mob s
  | Snap.toMax => setMaxSize mob s

/-- `_onEndMobile()`: refresh `minSize` from the header + drag handle when
both exist, read the final height, and run the snap routine selected by
`classifyEndMobile` (the trailing overflow-class tweak is CSS-only). -/
def onEndMobile (env : Env) (s : Sheet) : Sheet × List Ev :=
  let s0 := match env.headerHandle with
    | some h => { s with minSize := h }
    | none => s
  let finalSize := offsetHeight env s0
  snapRun true (classifyEndMobile finalSize s0.startSize s0.maxSize) s0

/-- `_onEndDesktop()`: reset `minSize` to 40, read the final width, and run
the snap routine selected by `classifyEndDesktop`. -/
def onEndDesktop (env : Env) (s : Sheet) : Sheet × List Ev :=
  let s0 := { s with minSize := 40 }
  let finalSize := offsetWidth env s0
  snapRun false (classifyEndDesktop finalSize s0.startSize) s0

/-- `_onEnd()`: ignore when not dragging; clear `hasMoved`/`isDragging`;
a movement-free gesture is a plain click (no further action), a gesture
longer than 500ms is discarded, otherwise the device-specific end handler
snaps the panel. -/
def onEnd (mob : Bool) (now : ℚ) (env : Env) (s : Sheet) :
    Sheet × List Ev :=
  if ¬s.isDragging then (s, [])
  else
    let dragDuration := now - s.dragStart
    let hadMovement := s.hasMoved
    let s1 := { s with hasMoved := false, isDragging := false }
    if ¬hadMovement then (s1, [])
    else if dragDuration > 500 then (s1, [])
    else if mob then onEndMobile env s1
    else onEndDesktop env s1

/-! ### `hold` helper (`helpers.ts`): a one-slot timer guarding `_onStart`.
`start` schedules the callback only when no timer is counting; `cancel`
discards a pending timer; firing runs the callback and frees the slot. -/

/-- The closure state of `Helpers.hold`: whether `timer` is non-null. -/
structure HoldState where
  timerPending : Bool
deriving DecidableEq, Repr

/-- `hold(...).start`: a no-op while the timer is already counting,
otherwise arms the timer. -/
def holdStart (h : HoldState) : HoldState :=
  if h.timerPending then h else { timerPending := true }

/-- `hold(...).cancel`: clears any pending timer. -/
def holdCancel (_h : HoldState) : HoldState :=
  { timerPending := false }

/-- The timer firing: when pending, run the held callback on the guarded
state and free the slot; otherwise nothing happens. -/
def holdFire (fn : Sheet → Sheet) (h : HoldState) (s : Sheet) :
    HoldState × Sheet :=
  if h.timerPending then ({ timerPending := false }, fn s) else (h, s)

/-- A complete gesture-start attempt as wired in
`_initializeEventListeners`: `holdAction.start` on the down event, then the
25ms timer firing `_onStart` (when the start call actually armed it). -/
def gestureStartAttempt (mob inDragZone : Bool) (point now : ℚ)
    (env : Env) (h : HoldState) (s : Sheet) : HoldState × Sheet :=
  holdFire (onStart mob inDragZone point now env) (holdStart h) s

/-! ### Instance registry (`bottomSheetInstance.ts`). The module-level
`bottomSheetInstance` variable is the explicit `Option α` argument; each
function maps it per the source. -/

/-- The message of the error thrown by `getBottomSheetOrThrow`. -/
def bottomSheetErrMsg : String :=
  "BottomSheet no ha sido inicializado. Asegurate de que el componente BottomSheet.astro este montado."

/-- `setBottomSheet(instance)`: overwrites the slot. -/
def setBottomSheet {α : Type} (inst : α) (_slot : Option α) : Option α :=
  some inst

/-- `getBottomSheet()`: returns the slot as-is (`null` → `none`). -/
def getBottomSheet {α : Type} (slot : Option α) : Option α :=
  slot

/-- `getBottomSheetOrThrow()`: throws the not-initialized error on an empty
slot, otherwise returns the stored instance. -/
def getBottomSheetOrThrow {α : Type} (slot : Option α) : Except String α :=
  match slot with
  | none => Except.error bottomSheetErrMsg
  | some x => Except.ok x

/-- `isBottomSheetInitialized()`: `bottomSheetInstance !== null`. -/
def isBottomSheetInitialized {α : Type} (slot : Option α) : Bool :=
  slot.isSome

/-- `clearBottomSheet()`: resets the slot to `null`. -/
def clearBottomSheet {α : Type} (_slot : Option α) : Option α :=
  none

/-! ### `processBatchAsync` (`helpers.ts`). Each scheduled run of
`processBatch` handles indices `[currentIndex, min(currentIndex+batchSize,
len))` and reschedules itself while indices remain. `fuel` bounds the
number of scheduled runs; exhausting it before the work is done yields
`none`, so a `some` result certifies termination. The returned list is the
sequence of indices passed to the callback, in call order. -/

/-- The scheduled-batch loop of `processBatchAsync`, for an `items` array of
length `len`. -/
def runBatches (len batchSize : ℕ) : ℕ → ℕ → Option (List ℕ)
  | 0, _ => none
  | fuel + 1, currentIndex =>
    let endIndex := min (currentIndex + batchSize) len
    let processed := List.range' currentIndex (endIndex - currentIndex)
    if endIndex < len then
      (runBatches len batchSize fuel endIndex).map (fun rest => processed ++ rest)
    else
      some processed

/-- `processBatchAsync(items, batchSize, callback)`: the indices at which
`callback(items[i], i)` is invoked, in call order, starting from
`currentIndex = 0`, with enough fuel for `items.length + 1` scheduled
batches. -/
def processBatchAsync {α : Type} (items : List α) (batchSize : ℕ) :
    Option (List ℕ) :=
  runBatches items.length batchSize (items.length + 1) 0

/-! ### Reachable controller states. One inductive step per public
operation and per drag-lifecycle handler, each with arbitrary device class,
environment and event data. -/

/-- States reachable from a freshly constructed controller through `open`,
`close`, `minimize`, the three size presets, and the drag lifecycle. -/
inductive Reach : Sheet → Prop where
  | init (minS maxS : ℚ) : Reach (initialSheet minS maxS)
  | openStep (s : Sheet) (mob : Bool) (env : Env) :
      Reach s → Reach (openPanel mob env s).1
  | closeStep (s : Sheet) :
      Reach s → Reach (closePanel s).1
  | minimizeStep (s : Sheet) (mob : Bool) :
      Reach s → Reach (minimizePanel mob s).1
  | setMinStep (s : Sheet) (mob : Bool) :
      Reach s → Reach (setMinSize mob s).1
  | setMidStep (s : Sheet) (mob : Bool) :
      Reach s → Reach (setMidSize mob s).1
  | setMaxStep (s : Sheet) (mob : Bool) :
      Reach s → Reach (setMaxSize mob s).1
  | startStep (s : Sheet) (mob z : Bool) (point now : ℚ) (env : Env) :
      Reach s → Reach (onStart mob z point now env s)
  | moveStep (s : Sheet) (mob : Bool) (chain : List Elem) (point : ℚ) :
      Reach s → Reach (onMove mob chain point s).1
  | endStep (s : Sheet) (mob : Bool) (now : ℚ) (env : Env) :
      Reach s → Reach (onEnd mob now env s).1

/-! ### Concrete scenarios used by witnesses and counterexamples. -/

/-- A mobile layout: a 1000px container, the panel rendering at 200px
height / 300px width with no inline style, header/handle absent. -/
def envA : Env :=
  { containerHeight := 1000, defaultHeight := 200, defaultWidth := 300,
    headerHandle := none }

/-- Gesture start at point 300, time 0, on a fresh controller with bounds
40/500, in `envA`. -/
def cA1 : Sheet := onStart true true 300 0 envA (initialSheet 40 500)

/-- The same gesture after one touch move to point 250 (50px of travel). -/
def cA2 : Sheet := (onMove true [] 250 cA1).1

/-- A fresh controller mid-drag with movement already registered. -/
def sC2 : Sheet :=
  { initialSheet 40 500 with isDragging := true, hasMoved := true }

/-- A controller with a drag in progress and 10px of accumulated movement,
with no hold timer pending. -/
def sD : Sheet :=
  { initialSheet 40 500 with isDragging := true, totalMovement := 10 }

/-- A settled panel at 200px inline height whose last gesture started from
size 100, bounds 40/500. -/
def sE : Sheet :=
  { initialSheet 40 500 with
    startSize := 100, heightStyle := HeightStyle.px 200 }

/-- A small mobile layout: 100px container, 80px default panel height,
bounds 60/95 — valid (`60 ≤ 95`) but with `minSize` above half the
container. -/
def envB : Env :=
  { containerHeight := 100, defaultHeight := 80, defaultWidth := 300,
    headerHandle := none }

/-- Gesture start at point 300, time 0, bounds 60/95, in `envB`. -/
def cB1 : Sheet := onStart true true 300 0 envB (initialSheet 60 95)

/-- The same gesture after one touch move to point 310 (panel shrinks to
70px, clamped within bounds). -/
def cB2 : Sheet := (onMove true [] 310 cB1).1

/-- A one-element ancestor chain: a scrollable box with room above. -/
def chainW : List Elem :=
  [{ overflowYAutoOrScroll := true, scrollTop := 10, scrollHeight := 100,
     clientHeight := 50, isPanel := false }]

/-! ### Helper lemmas. -/

/-- `_canScrollYInDirection` for a non-panel element and nonzero delta,
characterized by the scrollability and direction-room conditions. -/
lemma canScrollYInDirection_iff (e : Elem) (delta : ℚ)
    (hp : e.isPanel = false) (hnz : delta ≠ 0) :
    canScrollYInDirection e delta = true ↔
      ((e.overflowYAutoOrScroll = true ∧ e.scrollHeight > e.clientHeight) ∧
       ((delta > 0 ∧ e.scrollTop > 5) ∨
        (delta < 0 ∧ e.scrollTop + e.clientHeight < e.scrollHeight))) := by
  rcases lt_trichotomy delta 0 with h | h | h
  · simp [canScrollYInDirection, isScrollableY, hp, h, asymm h,
      not_lt_of_lt h, and_assoc]
  · exact absurd h hnz
  · simp [canScrollYInDirection, isScrollableY, hp, h, asymm h,
      not_lt_of_lt h, and_assoc]

/-- With a positive batch size and enough fuel, the batch loop terminates
and visits exactly the indices from `currentIndex` up to `len`. -/
lemma runBatches_eq (len batchSize : ℕ) (hb : 1 ≤ batchSize) :
    ∀ fuel c, len ≤ c + fuel → 1 ≤ fuel →
      runBatches len batchSize fuel c = some (List.range' c (len - c)) := by
  intro fuel
  induction fuel with
  | zero => intro c _ h1; exact absurd h1 (by omega)
  | succ f ih =>
    intro c hlen _
    unfold runBatches
    by_cases he : min (c + batchSize) len < len
    · have hcb : min (c + batchSize) len = c + batchSize := by omega
      have he2 : c + batchSize < len := by omega
      have hrec := ih (c + batchSize) (by omega) (by omega)
      rw [hcb, if_pos he2, hrec]
      rw [Option.map_some']
      congr 1
      rw [show c + batchSize - c = batchSize by omega,
          show len - (c + batchSize) = len - c - batchSize by omega,
          List.range'_append_1]
      have hxy : len - c - batchSize + batchSize = len - c := by omega
      rw [hxy]
    · have hmin : min (c + batchSize) len = len := by omega
      rw [hmin, if_neg (lt_irrefl len)]

/-- `setMinSize` always clears the maximized flag. -/
lemma setMinSize_not_max (mob : Bool) (s : Sheet) :
    ((setMinSize mob s).1).isMaximized = false := by
  cases mob <;> simp [setMinSize, hidePanelContent]

/-- `setMaxSize` always clears the minimized flag. -/
lemma setMaxSize_not_min (mob : Bool) (s : Sheet) :
    ((setMaxSize mob s).1).isMinimized = false := by
  cases mob <;> simp [setMaxSize, showPanelContent]

/-- `setMidSize` always clears the minimized flag. -/
lemma setMidSize_not_min (mob : Bool) (s : Sheet) :
    ((setMidSize mob s).1).isMinimized = false := by
  cases mob <;> simp [setMidSize, setMaxSize, showPanelContent]

/-- `open` always leaves the panel not minimized. -/
lemma openPanel_not_min (mob : Bool) (env : Env) (s : Sheet) :
    ((openPanel mob env s).1).isMinimized = false := by
  simp only [openPanel]
  split_ifs with h
  · exact setMidSize_not_min mob _
  · simp [showPanelContent]

/-- `minimize` preserves flag exclusivity. -/
lemma minimizePanel_inv (mob : Bool) (s : Sheet)
    (hs : ¬(s.isMinimized = true ∧ s.isMaximized = true)) :
    ¬(((minimizePanel mob s).1).isMinimized = true ∧
      ((minimizePanel mob s).1).isMaximized = true) := by
  simp only [minimizePanel]
  split_ifs with h hm
  · exact hs
  · simp [hidePanelContent]
  · simp [hidePanelContent]

/-- `_onStart` preserves flag exclusivity. -/
lemma onStart_inv (mob z : Bool) (point now : ℚ) (env : Env) (s : Sheet)
    (hs : ¬(s.isMinimized = true ∧ s.isMaximized = true)) :
    ¬((onStart mob z point now env s).isMinimized = true ∧
      (onStart mob z point now env s).isMaximized = true) := by
  simp only [onStart]
  split_ifs with h hm
  · simp [showPanelContent]
  · simp [showPanelContent]
  · exact hs

/-- `_onMoveMobile` never touches the minimized/maximized flags. -/
lemma onMoveMobile_flags (chain : List Elem) (p : ℚ) (s : Sheet) :
    (onMoveMobile chain p s).isMinimized = s.isMinimized ∧
    (onMoveMobile chain p s).isMaximized = s.isMaximized := by
  refine ⟨?_, ?_⟩ <;> (simp only [onMoveMobile]; split_ifs <;> rfl)

/-- `_onMoveDesktop` never touches the minimized/maximized flags. -/
lemma onMoveDesktop_flags (p : ℚ) (s : Sheet) :
    (onMoveDesktop p s).isMinimized = s.isMinimized ∧
    (onMoveDesktop p s).isMaximized = s.isMaximized := by
  refine ⟨?_, ?_⟩ <;> (simp only [onMoveDesktop]; split_ifs <;> rfl)

/-- `_onMove` preserves flag exclusivity. -/
lemma onMove_inv (mob : Bool) (chain : List Elem) (p : ℚ) (s : Sheet)
    (hs : ¬(s.isMinimized = true ∧ s.isMaximized = true)) :
    ¬(((onMove mob chain p s).1).isMinimized = true ∧
      ((onMove mob chain p s).1).isMaximized = true) := by
  simp only [onMove]
  split_ifs with h1 h2
  · dsimp only
    rw [(onMoveMobile_flags chain p s).1, (onMoveMobile_flags chain p s).2]
    exact hs
  · dsimp only
    rw [(onMoveDesktop_flags p s).1, (onMoveDesktop_flags p s).2]
    exact hs
  · exact hs

/-- Every snap routine leaves the two flags mutually exclusive. -/
lemma snapRun_inv (mob : Bool) (snap : Snap) (s : Sheet) :
    ¬(((snapRun mob snap s).1).isMinimized = true ∧
      ((snapRun mob snap s).1).isMaximized = true) := by
  cases snap <;>
    simp [snapRun, setMidSize_not_min, setMinSize_not_max, setMaxSize_not_min]

/-- `_onEndMobile` leaves the two flags mutually exclusive. -/
lemma onEndMobile_inv (env : Env) (s : Sheet) :
    ¬(((onEndMobile env s).1).isMinimized = true ∧
      ((onEndMobile env s).1).isMaximized = true) := by
  unfold onEndMobile
  exact snapRun_inv true _ _

/-- `_onEndDesktop` leaves the two flags mutually exclusive. -/
lemma onEndDesktop_inv (env : Env) (s : Sheet) :
    ¬(((onEndDesktop env s).1).isMinimized = true ∧
      ((onEndDesktop env s).1).isMaximized = true) := by
  unfold onEndDesktop
  exact snapRun_inv false _ _

/-- `_onEnd` preserves flag exclusivity. -/
lemma onEnd_inv (mob : Bool) (now : ℚ) (env : Env) (s : Sheet)
    (hs : ¬(s.isMinimized = true ∧ s.isMaximized = true)) :
    ¬(((onEnd mob now env s).1).isMinimized = true ∧
      ((onEnd mob now env s).1).isMaximized = true) := by
  simp only [onEnd]
  split_ifs with h1 h2 h3 h4
  · exact hs
  · exact onEndMobile_inv env _
  · exact onEndDesktop_inv env _
  · exact hs
  · exact hs

/-! ### Claim theorems. -/

/-- C1 (counterexample): the claim predicts that a drag that grew
(`finalSize ≥ startSize`) snaps to maximum, but at
`finalSize = 200, startSize = 100, maxSize = 500` (so `200 ≥ 100` and
`midThreshold = 300`) `_onEndMobile` selects the mid snap and emits
`midsize`, not `maxsize`. -/
theorem classifyEndMobile_growth_not_max :
    (200 : ℚ) ≥ 100 ∧
    offsetHeight envA sE = 200 ∧ sE.startSize = 100 ∧ sE.maxSize = 500 ∧
    classifyEndMobile 200 100 500 = Snap.toMid ∧
    (onEndMobile envA sE).2 = [Ev.midsize] ∧
    Snap.toMid ≠ Snap.toMax := by
  refine ⟨by norm_num, ?_, ?_, ?_, by norm_num [classifyEndMobile], ?_, by decide⟩
  · norm_num [sE, envA, initialSheet, offsetHeight]
  · norm_num [sE, initialSheet]
  · norm_num [sE, initialSheet]
  · norm_num [sE, envA, initialSheet, offsetHeight, onEndMobile, snapRun,
      classifyEndMobile, setMidSize, showPanelContent]

/-- C1 (amended): the vertical end-of-drag outcome is the pure function of
`(finalSize, startSize, maxSize)` computed by `classifyEndMobile`, with
`midThreshold = 0.6 * maxSize`: shrinking strictly below the threshold
snaps to minimum; shrinking while strictly above it snaps to mid;
shrinking to exactly the threshold snaps to maximum; growing while
strictly below the threshold snaps to mid (not maximum); growing to at or
above the threshold snaps to maximum; and ending exactly at the start
size snaps to maximum. -/
theorem classifyEndMobile_cases (F S M : ℚ) :
    (F < S → F < M * (6 / 10) → classifyEndMobile F S M = Snap.toMin) ∧
    (F < S → F > M * (6 / 10) → classifyEndMobile F S M = Snap.toMid) ∧
    (F < S → F = M * (6 / 10) → classifyEndMobile F S M = Snap.toMax) ∧
    (F > S → F < M * (6 / 10) → classifyEndMobile F S M = Snap.toMid) ∧
    (F > S → F ≥ M * (6 / 10) → classifyEndMobile F S M = Snap.toMax) ∧
    (F = S → classifyEndMobile F S M = Snap.toMax) := by
  simp only [classifyEndMobile]
  refine ⟨?_, ?_, ?_, ?_, ?_, ?_⟩
  · intro h1 h2
    split_ifs with hA hB
    · rcases hA with ⟨h3, h4⟩ | ⟨h3, h4⟩ <;> linarith
    · rfl
    · exact absurd ⟨h1, h2⟩ hB
  · intro h1 h2
    split_ifs with hA hB
    · rfl
    · exact absurd (Or.inl ⟨h1, h2⟩) hA
    · exact absurd (Or.inl ⟨h1, h2⟩) hA
  · intro h1 h2
    split_ifs with hA hB
    · rcases hA with ⟨h3, h4⟩ | ⟨h3, h4⟩ <;> linarith
    · rcases hB with ⟨h3, h4⟩; linarith
    · rfl
  · intro h1 h2
    split_ifs with hA hB
    · rfl
    · exact absurd (Or.inr ⟨h1, h2⟩) hA
    · exact absurd (Or.inr ⟨h1, h2⟩) hA
  · intro h1 h2
    split_ifs with hA hB
    · rcases hA with ⟨h3, h4⟩ | ⟨h3, h4⟩ <;> linarith
    · rcases hB with ⟨h3, h4⟩; linarith
    · rfl
  · intro h1
    split_ifs with hA hB
    · rcases hA with ⟨h3, h4⟩ | ⟨h3, h4⟩ <;> linarith
    · rcases hB with ⟨h3, h4⟩; linarith
    · rfl

/-- C1 (witness): at `finalSize = 150 < startSize = 200` with
`midThreshold = 300` the classification is the minimum snap. -/
theorem classifyEndMobile_cases_witness :
    classifyEndMobile 150 200 500 = Snap.toMin :=
  (classifyEndMobile_cases 150 200 500).1 (by norm_num) (by norm_num)

/-- C2 (counterexample): a gesture that started at height 200, moved 50px
(past the noise threshold) so the move handler wrote 250px live, and was
released after 600ms (`> 500`) ends with the panel at 250px — not at the
200px it had at gesture start. -/
theorem longDrag_retains_moved_size :
    cA2.totalMovement > 5 ∧
    (600 : ℚ) - cA2.dragStart > 500 ∧
    offsetHeight envA cA1 = 200 ∧
    offsetHeight envA (onEnd true 600 envA cA2).1 = 250 ∧
    (250 : ℚ) ≠ 200 := by
  norm_num [cA2, cA1, envA, onStart, onMove, onMoveMobile, onEnd,
    initialSheet, showPanelContent, offsetHeight,
    anyScrollableAncestorCanMove]

/-- C2 (amended): a drag released after more than 500ms performs no snap:
`_onEnd` only clears `hasMoved` and `isDragging`, emits no event, and
leaves the panel's inline sizes exactly as the last move wrote them (which
may differ from the size at gesture start). -/
theorem onEnd_longDrag_no_snap (mob : Bool) (now : ℚ) (env : Env)
    (s : Sheet) (hd : s.isDragging = true) (hm : s.hasMoved = true)
    (ht : now - s.dragStart > 500) :
    onEnd mob now env s =
      ({ s with hasMoved := false, isDragging := false }, []) := by
  simp [onEnd, hd, hm, ht]

/-- C2 (witness): the no-snap theorem applied to a mid-drag state released
at `t = 600` with `dragStart = 0`. -/
theorem onEnd_longDrag_no_snap_witness :
    onEnd true 600 envA sC2 =
      ({ sC2 with hasMoved := false, isDragging := false }, []) :=
  onEnd_longDrag_no_snap true 600 envA sC2 rfl rfl
    (by norm_num [sC2, initialSheet])

/-- C3 (counterexample): with valid bounds `minSize = 60 ≤ maxSize = 95`
in a 100px container, a completed mobile drag (move clamped to 70px, then
release after 100ms classified as a mid snap) settles the panel at
`50%` of the container = 50px, which is below `minSize = 60`. -/
theorem midSnap_settles_below_minSize :
    (60 : ℚ) ≤ 95 ∧
    cB2.hasMoved = true ∧
    offsetHeight envB cB2 = 70 ∧
    (onEnd true 100 envB cB2).2 = [Ev.midsize] ∧
    (onEnd true 100 envB cB2).1.minSize = 60 ∧
    offsetHeight envB (onEnd true 100 envB cB2).1 = 50 ∧
    ¬((60 : ℚ) ≤ 50) := by
  norm_num [cB2, cB1, envB, onStart, onMove, onMoveMobile, onEnd,
    onEndMobile, snapRun, classifyEndMobile, setMidSize, showPanelContent,
    initialSheet, offsetHeight, anyScrollableAncestorCanMove]

/-- C3 (amended): with `minSize ≤ maxSize`, every size written during a
drag move lies in `[minSize, maxSize]` on both axes, and the mobile
minimum/maximum snaps write exactly `minSize`/`maxSize`; but the settled
size after a completed drag is not always in bounds — a mid snap writes
50% of the container height, which can fall outside the interval, and a
desktop minimum snap clears the inline width instead of writing a size. -/
theorem dragMove_clamped (s : Sheet) (chain : List Elem) (p : ℚ)
    (hb : s.minSize ≤ s.maxSize) :
    (anyScrollableAncestorCanMove chain (p - s.prevPoint) = false →
      ∃ v, (onMoveMobile chain p s).heightStyle = HeightStyle.px v ∧
        s.minSize ≤ v ∧ v ≤ s.maxSize) ∧
    (∃ v, (onMoveDesktop p s).widthStyle = some v ∧
        s.minSize ≤ v ∧ v ≤ s.maxSize) ∧
    (setMinSize true s).1.heightStyle = HeightStyle.px s.minSize ∧
    (setMaxSize true s).1.heightStyle = HeightStyle.px s.maxSize := by
  refine ⟨?_, ?_, ?_, ?_⟩
  · intro habs
    refine ⟨max s.minSize (min s.maxSize (s.startSize + (s.startPoint - p))),
      ?_, ?_, ?_⟩
    · simp [onMoveMobile, habs]
      split_ifs <;> rfl
    · exact le_max_left _ _
    · exact max_le hb (min_le_left _ _)
  · refine ⟨max s.minSize (min s.maxSize (s.startSize + (s.startPoint - p))),
      ?_, ?_, ?_⟩
    · simp [onMoveDesktop]
      split_ifs <;> rfl
    · exact le_max_left _ _
    · exact max_le hb (min_le_left _ _)
  · simp [setMinSize, hidePanelContent]
  · simp [setMaxSize, showPanelContent]

/-- C3 (witness): the clamp theorem applied to the bounds-60/95 gesture:
the move write at point 310 is an in-bounds pixel height. -/
theorem dragMove_clamped_witness :
    ∃ v, (onMoveMobile [] 310 cB1).heightStyle = HeightStyle.px v ∧
      cB1.minSize ≤ v ∧ v ≤ cB1.maxSize :=
  (dragMove_clamped cB1 [] 310
      (by norm_num [cB1, envB, onStart, initialSheet, showPanelContent,
        offsetHeight])).1
    (by norm_num [anyScrollableAncestorCanMove])

/-- C4 (counterexample): with a drag already in progress
(`isDragging = true`, 10px of accumulated movement) and no hold timer
pending, a new gesture-start attempt is not ignored: the hold timer is
armed and on firing `_onStart` resets `totalMovement` to 0 and restamps
`dragStart`, changing the drag state. -/
theorem startAttempt_during_drag_resets_state :
    sD.isDragging = true ∧
    (gestureStartAttempt true true 300 7 envA { timerPending := false }
        sD).2.totalMovement ≠ sD.totalMovement ∧
    (gestureStartAttempt true true 300 7 envA { timerPending := false }
        sD).2.dragStart ≠ sD.dragStart := by
  norm_num [sD, envA, gestureStartAttempt, holdFire, holdStart, onStart,
    showPanelContent, initialSheet, offsetHeight]

/-- C4 (amended): a new gesture-start attempt is ignored while the
hold-confirmation timer is pending (`hold.start` is a no-op, so nothing
changes); but while a drag is already in progress with no timer pending, a
start attempt is not ignored — it arms the timer and, when the timer
fires, `_onStart` re-initializes the drag state (`dragStart := now`,
`totalMovement := 0`, `hasMoved := false`, `isDragging := true`),
regardless of the prior `isDragging` value. -/
theorem holdStart_pending_ignored (h : HoldState) (s : Sheet) (mob : Bool)
    (point now : ℚ) (env : Env) :
    (h.timerPending = true → holdStart h = h) ∧
    ((gestureStartAttempt mob true point now env { timerPending := false }
        s).2.dragStart = now ∧
     (gestureStartAttempt mob true point now env { timerPending := false }
        s).2.totalMovement = 0 ∧
     (gestureStartAttempt mob true point now env { timerPending := false }
        s).2.hasMoved = false ∧
     (gestureStartAttempt mob true point now env { timerPending := false }
        s).2.isDragging = true) := by
  constructor
  · intro hp; simp [holdStart, hp]
  · cases mob <;>
      simp [gestureStartAttempt, holdFire, holdStart, onStart,
        showPanelContent]

/-- C4 (witness): a start attempt against a pending timer leaves the hold
state unchanged. -/
theorem holdStart_pending_ignored_witness :
    holdStart { timerPending := true } = { timerPending := true } :=
  (holdStart_pending_ignored { timerPending := true } (initialSheet 0 0)
    true 0 0 envA).1 rfl

/-- C5: on the horizontal (desktop) axis the end-of-drag outcome has
exactly two tiers decided purely by comparing the final size to the start
size — strictly below the start snaps to minimum, otherwise to maximum —
and `setMidSize` on desktop is literally `setMaxSize` (same state change,
same `maxsize` event). -/
theorem desktopEnd_two_tiers (F S : ℚ) (s : Sheet) :
    (F < S → classifyEndDesktop F S = Snap.toMin) ∧
    (F ≥ S → classifyEndDesktop F S = Snap.toMax) ∧
    setMidSize false s = setMaxSize false s := by
  refine ⟨?_, ?_, rfl⟩
  · intro h; simp [classifyEndDesktop, h]
  · intro h; simp [classifyEndDesktop, not_lt.mpr h]

/-- C5 (witness): a desktop drag ending below its start size classifies as
the minimum snap. -/
theorem desktopEnd_two_tiers_witness :
    classifyEndDesktop 100 200 = Snap.toMin :=
  (desktopEnd_two_tiers 100 200 (initialSheet 40 500)).1 (by norm_num)

/-- C6: for every start-element ancestor chain and nonzero delta,
`_anyScrollableAncestorCanMove` returns true iff some element of the chain
before the panel root is independently vertically scrollable (computed
`overflow-y` auto/scroll and `scrollHeight > clientHeight`) and has room
in the attempted direction (`scrollTop > 5` for positive delta;
`scrollTop + clientHeight < scrollHeight` for negative delta). -/
theorem ancestorScroll_classifier_spec (chain : List Elem) (delta : ℚ)
    (hnz : delta ≠ 0) :
    (anyScrollableAncestorCanMove chain delta = true ↔
      ∃ e ∈ chain.takeWhile (fun x => !x.isPanel),
        (e.overflowYAutoOrScroll = true ∧ e.scrollHeight > e.clientHeight) ∧
        ((delta > 0 ∧ e.scrollTop > 5) ∨
         (delta < 0 ∧ e.scrollTop + e.clientHeight < e.scrollHeight))) := by
  induction chain with
  | nil => simp [anyScrollableAncestorCanMove]
  | cons e rest ih =>
    by_cases hp : e.isPanel = true
    · simp [anyScrollableAncestorCanMove, hp, List.takeWhile_cons]
    · have hp2 : e.isPanel = false := by simpa using hp
      have htw : List.takeWhile (fun x => !x.isPanel) (e :: rest) =
          e :: List.takeWhile (fun x => !x.isPanel) rest := by
        simp [List.takeWhile_cons, hp2]
      rw [htw]
      by_cases hc : canScrollYInDirection e delta = true
      · have hl : anyScrollableAncestorCanMove (e :: rest) delta = true := by
          simp [anyScrollableAncestorCanMove, hp2, hc]
        refine ⟨fun _ => ?_, fun _ => hl⟩
        exact ⟨e, List.mem_cons_self e _,
          (canScrollYInDirection_iff e delta hp2 hnz).mp hc⟩
      · have hc2 : canScrollYInDirection e delta = false := by simpa using hc
        have hstep : anyScrollableAncestorCanMove (e :: rest) delta =
            anyScrollableAncestorCanMove rest delta := by
          simp [anyScrollableAncestorCanMove, hp2, hc2]
        rw [hstep, ih]
        constructor
        · rintro ⟨x, hx, hq⟩
          exact ⟨x, List.mem_cons_of_mem e hx, hq⟩
        · rintro ⟨x, hx, hq⟩
          rcases List.mem_cons.mp hx with rfl | hx2
          · exact absurd
              ((canScrollYInDirection_iff x delta hp2 hnz).mpr hq) hc
          · exact ⟨x, hx2, hq⟩

/-- C6 (witness): a downward-moving touch (`delta = 4`) over a scrollable
box with `scrollTop = 10 > 5` is absorbed by that ancestor. -/
theorem ancestorScroll_classifier_spec_witness :
    ∃ e ∈ chainW.takeWhile (fun x => !x.isPanel),
      (e.overflowYAutoOrScroll = true ∧ e.scrollHeight > e.clientHeight) ∧
      (((4 : ℚ) > 0 ∧ e.scrollTop > 5) ∨
       ((4 : ℚ) < 0 ∧ e.scrollTop + e.clientHeight < e.scrollHeight)) :=
  (ancestorScroll_classifier_spec chainW 4 (by norm_num)).mp
    (by norm_num [chainW, anyScrollableAncestorCanMove,
      canScrollYInDirection, isScrollableY])

/-- C7: a release after a gesture whose accumulated movement never crossed
the 5px noise threshold (`hasMoved = false`) changes neither inline size
nor emits any event, regardless of the gesture's duration. -/
theorem stationary_release_no_size_change (mob : Bool) (now : ℚ)
    (env : Env) (s : Sheet) (hm : s.hasMoved = false) :
    (onEnd mob now env s).1.heightStyle = s.heightStyle ∧
    (onEnd mob now env s).1.widthStyle = s.widthStyle ∧
    (onEnd mob now env s).2 = [] := by
  by_cases hd : s.isDragging
  · simp [onEnd, hd, hm]
  · simp [onEnd, hd]

/-- C7 (witness): releasing a fresh (never-moved) controller at `t = 9999`
changes no size style and emits nothing. -/
theorem stationary_release_no_size_change_witness :
    (onEnd true 9999 envA (initialSheet 40 500)).1.heightStyle =
      (initialSheet 40 500).heightStyle ∧
    (onEnd true 9999 envA (initialSheet 40 500)).1.widthStyle =
      (initialSheet 40 500).widthStyle ∧
    (onEnd true 9999 envA (initialSheet 40 500)).2 = [] :=
  stationary_release_no_size_change true 9999 envA (initialSheet 40 500) rfl

/-- C8: in every state reachable through the public operations (`open`,
`close`, `minimize`, the three size presets) and the drag lifecycle, the
`isMinimized` and `isMaximized` flags are never both true. -/
theorem minimized_maximized_mutex (s : Sheet) (hr : Reach s) :
    ¬(s.isMinimized = true ∧ s.isMaximized = true) := by
  induction hr with
  | init minS maxS => simp [initialSheet]
  | openStep s mob env _ _ => simp [openPanel_not_min mob env s]
  | closeStep s _ _ => simp [closePanel]
  | minimizeStep s mob _ ih => exact minimizePanel_inv mob s ih
  | setMinStep s mob _ _ => simp [setMinSize_not_max mob s]
  | setMidStep s mob _ _ => simp [setMidSize_not_min mob s]
  | setMaxStep s mob _ _ => simp [setMaxSize_not_min mob s]
  | startStep s mob z point now env _ ih =>
      exact onStart_inv mob z point now env s ih
  | moveStep s mob chain point _ ih => exact onMove_inv mob chain point s ih
  | endStep s mob now env _ ih => exact onEnd_inv mob now env s ih

/-- C8 (witness): the exclusivity theorem applied to a freshly constructed
controller. -/
theorem minimized_maximized_mutex_witness :
    ¬((initialSheet 40 500).isMinimized = true ∧
      (initialSheet 40 500).isMaximized = true) :=
  minimized_maximized_mutex (initialSheet 40 500) (Reach.init 40 500)

/-- C9: the registry's checked getter fails with the not-initialized error
on the empty slot and after `clear`, returns exactly the last-set
reference after one or two `set` calls, the tolerant getter returns
`none` on the empty slot, and `clear` makes the presence check false. -/
theorem registry_accessors_spec {α : Type} (slot : Option α) (x y : α) :
    getBottomSheetOrThrow (none : Option α) =
      Except.error bottomSheetErrMsg ∧
    getBottomSheetOrThrow (clearBottomSheet slot) =
      Except.error bottomSheetErrMsg ∧
    getBottomSheetOrThrow (setBottomSheet x slot) = Except.ok x ∧
    getBottomSheetOrThrow (setBottomSheet y (setBottomSheet x slot)) =
      Except.ok y ∧
    getBottomSheet (none : Option α) = none ∧
    isBottomSheetInitialized (clearBottomSheet slot) = false :=
  ⟨rfl, rfl, rfl, rfl, rfl, rfl⟩

/-- C10: for every items array and `batchSize ≥ 1`, `processBatchAsync`
invokes the callback exactly once per index, in strictly increasing order
(the invocation sequence is `[0, 1, ..., length)`), terminating within
`length + 1` scheduled batches; and each scheduled batch strictly
advances `currentIndex` (by at least 1) while work remains. -/
theorem processBatchAsync_visits_each_index_once {α : Type}
    (items : List α) (batchSize : ℕ) (hb : 1 ≤ batchSize) :
    processBatchAsync items batchSize = some (List.range items.length) ∧
    (∀ c, c < items.length →
      c + 1 ≤ min (c + batchSize) items.length) := by
  constructor
  · rw [processBatchAsync,
        runBatches_eq items.length batchSize hb (items.length + 1) 0
          (by omega) (by omega)]
    simp [List.range_eq_range']
  · intro c hc; omega

/-- C10 (witness): a 3-element array processed in batches of 2 visits
indices 0, 1, 2 exactly once, in order. -/
theorem processBatchAsync_visits_each_index_once_witness :
    processBatchAsync [10, 20, 30] 2 = some (List.range 3) :=
  (processBatchAsync_visits_each_index_once [10, 20, 30] 2 (by decide)).1
